import Mathlib

/-!
Verification of the wellness-hub client application core
(`js/app.js` and `js/api.js`) in a shallow embedding.

Strings are Lean `String`s; JS arrays are Lean `List`s; the browser
`localStorage` is an association list from keys to raw stored strings;
JSON (de)serialization is an abstract pair of functions `parse`/`stringify`
(with `parse` partial, returning `none` on malformed input, as
`JSON.parse` throws); network fetches are an explicit outcome datum
(`fault` for a rejected fetch, or a response with an HTTP-ok flag and an
optional parsed body, `none` standing for a body `.json()` rejects).
Exceptions that a JS function can propagate to its caller are modelled
with `Except`; a function none of whose throw sites escape its own
`try`/`catch` is modelled as always returning `Except.ok`.
-/

namespace WellnessHub

/-- The three favoritable content kinds (the `data-type` attribute). -/
inductive FavType
  | quote
  | tip
  | video
deriving DecidableEq, Repr

/-- A wellness tip record, as loaded from `data/data.json`. -/
structure Tip where
  id : String
  title : String
  content : String
  category : String
  source : String
deriving DecidableEq, Repr

/-- A simplified video record produced by `fetchVideos`. -/
structure Video where
  videoId : String
  title : String
  channelTitle : String
deriving DecidableEq, Repr

/-- A persisted favorites entry.  The JS object carries `id` and `type`
always, and type-specific display fields (`q`/`a` for quotes,
`title`/`content` for tips, `title` for videos); absent fields are
`none`. -/
structure Favorite where
  id : String
  type : FavType
  q : Option String := none
  a : Option String := none
  title : Option String := none
  content : Option String := none
deriving DecidableEq, Repr

/-! ## Persistent preference store (`storage` in app.js lines 21-38)

`storage.get(key, default)` reads `localStorage.getItem(key)`; a `null`
(absent) or `""` (falsy) value yields the default; otherwise the value is
`JSON.parse`d, and a parse failure is caught and yields the default.
`storage.set(key, value)` stringifies and writes; a write failure
(e.g. quota) is caught and the store is left unchanged.  The store is an
association list; `writeOk` models whether `localStorage.setItem`
succeeds. -/

def storageGet {α : Type} (parse : String → Option α)
    (store : List (String × String)) (key : String) (dflt : α) : α :=
  match List.lookup key store with
  | none => dflt
  | some s =>
    if s == "" then dflt
    else
      match parse s with
      | some v => v
      | none => dflt

def storageSet {α : Type} (stringify : α → String)
    (store : List (String × String)) (key : String) (v : α)
    (writeOk : Bool) : List (String × String) :=
  if writeOk then (key, stringify v) :: store.filter (fun p => !(p.1 == key))
  else store

/-- C8: the preference store's `get` returns the deserialized stored value
when one is present and parseable (under the JSON fact that the empty
string is not parseable), returns the caller-supplied default when the key
is absent or deserialization fails, and a failed `set` write leaves the
store unchanged (silent no-op). -/
theorem storage_get_set_spec {α : Type} (parse : String → Option α)
    (stringify : α → String) (store : List (String × String))
    (key : String) (dflt : α) (hparse : parse "" = none) :
    (List.lookup key store = none → storageGet parse store key dflt = dflt)
    ∧ (∀ s v, List.lookup key store = some s → parse s = some v →
        storageGet parse store key dflt = v)
    ∧ (∀ s, List.lookup key store = some s → parse s = none →
        storageGet parse store key dflt = dflt)
    ∧ (∀ v, storageSet stringify store key v false = store) := by
  refine ⟨?_, ?_, ?_, ?_⟩
  · intro h
    simp [storageGet, h]
  · intro s v hs hv
    by_cases he : s = ""
    · subst he
      rw [hparse] at hv
      exact absurd hv (by simp)
    · simp [storageGet, hs, hv, he]
  · intro s hs hv
    by_cases he : s = ""
    · simp [storageGet, hs, he]
    · simp [storageGet, hs, hv, he]
  · intro v
    simp [storageSet]

/-- Witness for C8 at a concrete store and a concrete parse function. -/
theorem storage_get_set_spec_witness :
    storageGet (fun s => if s == "7" then some 7 else none)
      [("wellness-hub-2025-category", "7")] "wellness-hub-2025-category" 0 = 7
    ∧ storageSet (fun _ : Nat => "7") [("wellness-hub-2025-category", "7")]
        "wellness-hub-2025-category" 9 false
      = [("wellness-hub-2025-category", "7")] := by
  have h := storage_get_set_spec
    (fun s => if s == "7" then some 7 else none) (fun _ : Nat => "7")
    [("wellness-hub-2025-category", "7")] "wellness-hub-2025-category" 0
    (by decide)
  exact ⟨h.2.1 "7" 7 (by decide) (by decide), h.2.2.2 9⟩

/-! ## Favorite toggling (`handleToggleFavorite`, app.js lines 218-254)

A click on a `.favorite-btn` carries `data-` attributes: always `id` and
`type`, plus `q`/`a` on quote buttons, `title` (and for tips `content`)
on tip/video buttons.  The handler looks up the first favorites entry
with the clicked id (`findIndex`); if absent it pushes a freshly built
entry, otherwise it splices that entry out (remove first match). -/

/-- The `data-` attributes of a clicked `.favorite-btn`. -/
structure FavButton where
  id : String
  type : FavType
  dq : Option String := none
  da : Option String := none
  dtitle : Option String := none
  dcontent : Option String := none
deriving DecidableEq, Repr

/-- The new favorites entry built in the `isAdding` branch: quote fields
come from the button's dataset; tip fields come from the loaded tips
collection when the tip is found there, else from the dataset; video
title comes from the dataset. -/
def mkNewItem (localTips : List Tip) (b : FavButton) : Favorite :=
  match b.type with
  | FavType.quote => { id := b.id, type := b.type, q := b.dq, a := b.da }
  | FavType.tip =>
    match localTips.find? (fun t => t.id == b.id) with
    | some t => { id := b.id, type := b.type, title := some t.title,
                  content := some t.content }
    | none => { id := b.id, type := b.type, title := b.dtitle,
                content := b.dcontent }
  | FavType.video => { id := b.id, type := b.type, title := b.dtitle }

/-- Action of `handleToggleFavorite` on the favorites array: `findIndex === -1`
(no entry with the id — here: `any` is false) pushes the new entry;
otherwise `splice(index, 1)` removes the first entry with the id
(here: `eraseP`). -/
def toggleFavorite (localTips : List Tip) (b : FavButton)
    (favs : List Favorite) : List Favorite :=
  if favs.any (fun f => f.id == b.id) then
    favs.eraseP (fun f => f.id == b.id)
  else
    favs ++ [mkNewItem localTips b]

lemma mkNewItem_id (localTips : List Tip) (b : FavButton) :
    (mkNewItem localTips b).id = b.id := by
  unfold mkNewItem
  cases b.type
  · rfl
  · cases localTips.find? (fun t => t.id == b.id) <;> rfl
  · rfl

lemma filter_ne_eraseP (p : Favorite → Bool) (l : List Favorite) :
    (l.eraseP p).filter (fun x => !(p x)) = l.filter (fun x => !(p x)) := by
  induction l with
  | nil => rfl
  | cons a t ih =>
    cases h : p a <;> simp [List.eraseP_cons, List.filter_cons, h, ih]

lemma eraseP_eq_filter_of_nodup (b : String) :
    ∀ favs : List Favorite, (favs.map Favorite.id).Nodup →
      favs.any (fun f => f.id == b) = true →
      favs.eraseP (fun f => f.id == b) = favs.filter (fun f => !(f.id == b)) := by
  intro favs
  induction favs with
  | nil => intro _ h; simp at h
  | cons f fs ih =>
    intro hnd hmem
    rw [List.map_cons, List.nodup_cons] at hnd
    cases h : (f.id == b)
    · have hmem' : fs.any (fun g => g.id == b) = true := by
        simpa [List.any_cons, h] using hmem
      simp [List.eraseP_cons, List.filter_cons, h, ih hnd.2 hmem']
    · have hb : f.id = b := by simpa using h
      have hall : ∀ g ∈ fs, (!(g.id == b)) = true := by
        intro g hg
        have hne : g.id ≠ b := by
          intro he
          exact hnd.1 (hb ▸ he ▸ List.mem_map_of_mem Favorite.id hg)
        simpa using hne
      have hself : fs.filter (fun g => !(g.id == b)) = fs :=
        List.filter_eq_self.mpr hall
      simp [List.eraseP_cons, List.filter_cons, h, hself]

lemma toggle_nodup (localTips : List Tip) (b : FavButton)
    (favs : List Favorite) (hnd : (favs.map Favorite.id).Nodup) :
    ((toggleFavorite localTips b favs).map Favorite.id).Nodup := by
  unfold toggleFavorite
  cases h : favs.any (fun f => f.id == b.id)
  · have hnotin : b.id ∉ favs.map Favorite.id := by
      intro hin
      rcases List.mem_map.mp hin with ⟨f, hf, hfid⟩
      have := (List.any_eq_false.mp h) f hf
      simp [hfid] at this
    simp only [h, Bool.false_eq_true, if_false, List.map_append, List.map_cons,
      List.map_nil]
    rw [List.nodup_append]
    refine ⟨hnd, List.nodup_singleton _, ?_⟩
    intro x hx hx2
    rw [mkNewItem_id] at hx2
    simp at hx2
    exact hnotin (hx2 ▸ hx)
  · simp only [h, if_true]
    exact List.Nodup.sublist
      (List.Sublist.map Favorite.id (List.eraseP_sublist favs)) hnd

lemma foldl_toggle_nodup (localTips : List Tip) (bs : List FavButton) :
    ∀ favs : List Favorite, (favs.map Favorite.id).Nodup →
      ((bs.foldl (fun fs b => toggleFavorite localTips b fs) favs).map
        Favorite.id).Nodup := by
  induction bs with
  | nil => intro favs h; simpa using h
  | cons b bs ih =>
    intro favs h
    simpa [List.foldl_cons] using ih _ (toggle_nodup localTips b favs h)

/-- C1: starting from a favorites collection with pairwise-distinct ids,
any sequence of toggles keeps the ids pairwise distinct; a single toggle
appends the newly built entry when no entry with the clicked id is
present, and removes exactly the existing entry with that id when one is
present. -/
theorem toggleFavorite_unique_ids :
    (∀ (localTips : List Tip) (bs : List FavButton) (favs : List Favorite),
        (favs.map Favorite.id).Nodup →
        ((bs.foldl (fun fs b => toggleFavorite localTips b fs) favs).map
          Favorite.id).Nodup)
    ∧ (∀ (localTips : List Tip) (b : FavButton) (favs : List Favorite),
        (∀ f ∈ favs, f.id ≠ b.id) →
        toggleFavorite localTips b favs = favs ++ [mkNewItem localTips b])
    ∧ (∀ (localTips : List Tip) (b : FavButton) (favs : List Favorite),
        (favs.map Favorite.id).Nodup → (∃ f ∈ favs, f.id = b.id) →
        toggleFavorite localTips b favs
          = favs.filter (fun f => !(f.id == b.id))) := by
  refine ⟨fun localTips bs favs h => foldl_toggle_nodup localTips bs favs h,
    ?_, ?_⟩
  · intro localTips b favs hne
    have h : favs.any (fun f => f.id == b.id) = false := by
      rw [List.any_eq_false]
      intro f hf
      simpa using hne f hf
    simp [toggleFavorite, h]
  · intro localTips b favs hnd hex
    have h : favs.any (fun f => f.id == b.id) = true := by
      rw [List.any_eq_true]
      rcases hex with ⟨f, hf, hid⟩
      exact ⟨f, hf, by simpa using hid⟩
    rw [toggleFavorite, if_pos h]
    exact eraseP_eq_filter_of_nodup b.id favs hnd h

/-- An example video favorite button and the matching stored entry. -/
def exButton : FavButton :=
  { id := "v1", type := FavType.video, dtitle := some "Morning Yoga" }

def exVideoFav : Favorite :=
  { id := "v1", type := FavType.video, title := some "Morning Yoga" }

/-- Witness for C1 at concrete inputs. -/
theorem toggleFavorite_unique_ids_witness :
    ((([exButton].foldl (fun fs b => toggleFavorite [] b fs)
        ([] : List Favorite)).map Favorite.id).Nodup)
    ∧ toggleFavorite [] exButton [] = [] ++ [mkNewItem [] exButton]
    ∧ toggleFavorite [] exButton [exVideoFav]
        = [exVideoFav].filter (fun f => !(f.id == exButton.id)) := by
  refine ⟨toggleFavorite_unique_ids.1 [] [exButton] [] (by simp),
    toggleFavorite_unique_ids.2.1 [] exButton [] (by simp),
    toggleFavorite_unique_ids.2.2 [] exButton [exVideoFav] (by simp)
      ⟨exVideoFav, by simp, rfl⟩⟩

lemma toggle_filter_ne (localTips : List Tip) (b : FavButton)
    (favs : List Favorite) :
    (toggleFavorite localTips b favs).filter (fun f => !(f.id == b.id))
      = favs.filter (fun f => !(f.id == b.id)) := by
  unfold toggleFavorite
  cases h : favs.any (fun f => f.id == b.id)
  · simp only [h, Bool.false_eq_true, if_false]
    rw [List.filter_append]
    simp [List.filter_cons, mkNewItem_id]
  · simp only [h, if_true]
    exact filter_ne_eraseP _ favs

/-- C2: toggling the same id twice in succession restores the favorites
collection's content and relative order for all entries other than the
toggled id. -/
theorem toggleFavorite_twice_restores_others (localTips : List Tip)
    (b : FavButton) (favs : List Favorite) :
    (toggleFavorite localTips b (toggleFavorite localTips b favs)).filter
        (fun f => !(f.id == b.id))
      = favs.filter (fun f => !(f.id == b.id)) := by
  rw [toggle_filter_ne, toggle_filter_ne]

/-! ## Tips renderer (`renderTips`, app.js lines 100-134)

The renderer reads the category control's value and the search box's
value; the search value is `trim()`med and `toLowerCase()`d.  A tip
survives when the category matches (or the filter is `'all'`) and the
search value is empty or is a substring of the lowercased title or
content (`String.prototype.includes`).  An empty surviving list renders
the "No wellness tips found" placeholder; otherwise the surviving tips
are rendered in input order. -/

/-- JS `String.prototype.trim`: strip whitespace from both ends. -/
def jsTrim (s : String) : String :=
  String.mk (((s.data.dropWhile Char.isWhitespace).reverse.dropWhile
    Char.isWhitespace).reverse)

/-- JS `String.prototype.toLowerCase`, on the character list. -/
def lowerChars (l : List Char) : List Char := l.map Char.toLower

/-- The filter predicate of `renderTips` (the callback of
`tips.filter`), with the control values as parameters. -/
def tipMatches (categoryValue rawSearch : String) (tip : Tip) : Bool :=
  let searchValue := lowerChars (jsTrim rawSearch).data
  let matchesCategory := categoryValue == "all" || tip.category == categoryValue
  let matchesSearch := searchValue.isEmpty
    || decide (searchValue <:+: lowerChars tip.title.data)
    || decide (searchValue <:+: lowerChars tip.content.data)
  matchesCategory && matchesSearch

/-- What the tips mount point shows: either the single no-results
placeholder or the list of surviving tips. -/
inductive RenderedTips
  | noResults
  | items (tips : List Tip)
deriving DecidableEq, Repr

def renderTips (tips : List Tip) (categoryValue rawSearch : String) :
    RenderedTips :=
  let filteredTips := tips.filter (tipMatches categoryValue rawSearch)
  if filteredTips.length == 0 then RenderedTips.noResults
  else RenderedTips.items filteredTips

lemma lower_data_eq_nil_iff (s : String) : lowerChars s.data = [] ↔ s = "" := by
  unfold lowerChars
  rw [List.map_eq_nil_iff]
  constructor
  · intro h
    exact String.ext (by rw [h])
  · intro h
    rw [h]

/-- Modelled from the spec's words: the title or content contains the
search term case-insensitively. -/
def containsCI (hay needle : String) : Prop :=
  lowerChars needle.data <:+: lowerChars hay.data

/-- Modelled from the spec's words (P3): category equality or `"all"`,
and empty search term or case-insensitive containment in title or
content.  The term is the effective (trimmed) search term. -/
def specTipMatch (categoryValue term : String) (tip : Tip) : Prop :=
  (categoryValue = "all" ∨ tip.category = categoryValue)
  ∧ (term = "" ∨ containsCI tip.title term ∨ containsCI tip.content term)

/-- C3: the tips renderer shows exactly the tips surviving the filter,
in input order, and a single no-results placeholder when none survives;
the code's filter coincides with the spec's category/search predicate at
the trimmed search term. -/
theorem renderTips_filter_spec :
    (∀ (tips : List Tip) (categoryValue rawSearch : String),
        renderTips tips categoryValue rawSearch
          = if tips.filter (tipMatches categoryValue rawSearch) = []
            then RenderedTips.noResults
            else RenderedTips.items
              (tips.filter (tipMatches categoryValue rawSearch)))
    ∧ (∀ (categoryValue rawSearch : String) (tip : Tip),
        tipMatches categoryValue rawSearch tip = true
          ↔ specTipMatch categoryValue (jsTrim rawSearch) tip) := by
  constructor
  · intro tips categoryValue rawSearch
    unfold renderTips
    rcases h : tips.filter (tipMatches categoryValue rawSearch) with _ | ⟨t, ts⟩
    · simp [h]
    · simp [h]
  · intro categoryValue rawSearch tip
    unfold tipMatches specTipMatch containsCI
    simp only [Bool.and_eq_true, Bool.or_eq_true, beq_iff_eq,
      decide_eq_true_eq, List.isEmpty_iff, lower_data_eq_nil_iff, or_assoc]

def exTip : Tip :=
  { id := "t1", title := "Hydrate Well", content := "Drink enough water.",
    category := "fitness", source := "CDC" }

/-- Witness for C3 at a concrete tip list and control values. -/
theorem renderTips_filter_spec_witness :
    renderTips [exTip] "all" "" = RenderedTips.items [exTip]
    ∧ (tipMatches "all" " WATER " exTip = true
        ↔ specTipMatch "all" (jsTrim " WATER ") exTip) := by
  constructor
  · rw [renderTips_filter_spec.1 [exTip] "all" ""]
    decide
  · exact renderTips_filter_spec.2 "all" " WATER " exTip

/-! ## Favorites renderer (`renderFavorites`, app.js lines 170-213)

The persistent favorites array is filtered to entries of type `video`;
an empty result renders the "no favorite videos" placeholder, otherwise
the favorite videos are rendered in input order with remove controls. -/

/-- What the favorites mount point shows. -/
inductive RenderedFavorites
  | placeholder
  | items (favs : List Favorite)
deriving DecidableEq, Repr

def renderFavorites (favs : List Favorite) : RenderedFavorites :=
  let favoriteVideos := favs.filter (fun f => f.type == FavType.video)
  if favoriteVideos.length == 0 then RenderedFavorites.placeholder
  else RenderedFavorites.items favoriteVideos

def exQuoteFav : Favorite :=
  { id := "daily-quote-inspiration", type := FavType.quote,
    q := some "Stay calm.", a := some "Zen Master" }

def exTipFav : Favorite :=
  { id := "t1", type := FavType.tip, title := some "Hydrate Well",
    content := some "Drink enough water." }

/-- C7: the favorites renderer shows exactly the entries of type video,
in input order, and a placeholder when the video subset is empty; in
particular one quote + one tip + one video renders exactly the video. -/
theorem renderFavorites_video_scope :
    (∀ favs : List Favorite,
        renderFavorites favs
          = if favs.filter (fun f => decide (f.type = FavType.video)) = []
            then RenderedFavorites.placeholder
            else RenderedFavorites.items
              (favs.filter (fun f => decide (f.type = FavType.video))))
    ∧ renderFavorites [exQuoteFav, exTipFav, exVideoFav]
        = RenderedFavorites.items [exVideoFav]
    ∧ renderFavorites [exQuoteFav, exTipFav] = RenderedFavorites.placeholder := by
  refine ⟨?_, by decide, by decide⟩
  intro favs
  unfold renderFavorites
  have hfun : (fun f : Favorite => f.type == FavType.video)
      = (fun f : Favorite => decide (f.type = FavType.video)) := by
    funext f
    cases f.type <;> rfl
  rw [hfun]
  rcases h : favs.filter (fun f => decide (f.type = FavType.video)) with _ | ⟨g, gs⟩
  · simp [h]
  · simp [h]

/-! ## Remote data gateway (`js/api.js`)

A fetch either rejects (`fault`: network failure) or yields a response
with an `ok` flag and a body; `none` as the body stands for a body that
`.json()` fails to parse (or whose shape breaks the subsequent field
accesses). -/

inductive FetchOutcome (α : Type)
  | fault
  | resp (ok : Bool) (body : Option α)
deriving DecidableEq, Repr

/-- The quote provider's response body (`content` and `author` fields). -/
structure QuoteData where
  content : String
  author : String
deriving DecidableEq, Repr

/-- The hardcoded fallback quote returned by `fetchQuote` on any failure
(api.js line 44). -/
def fallbackQuote : String :=
  "Always code as if the person who ends up maintaining your code will be a violent psychopath who knows where to live. — Martin Golding"

/-- Model of `fetchQuote` (api.js lines 26-46): a non-ok status throws, a body
parse failure throws, and the surrounding catch returns the fallback
string; on success the result is `content — author`. -/
def fetchQuote (r : FetchOutcome QuoteData) : String :=
  match r with
  | FetchOutcome.fault => fallbackQuote
  | FetchOutcome.resp ok body =>
    if ok then
      match body with
      | some d => d.content ++ " — " ++ d.author
      | none => fallbackQuote
    else fallbackQuote

/-- C4: `fetchQuote` returns the fixed hardcoded fallback string on a
non-success status or a network fault (never propagating the failure),
and on success returns the string `content — author` built from the
response body. -/
theorem fetchQuote_fallback_spec :
    (∀ body, fetchQuote (FetchOutcome.resp false body) = fallbackQuote)
    ∧ fetchQuote FetchOutcome.fault = fallbackQuote
    ∧ (∀ d : QuoteData, fetchQuote (FetchOutcome.resp true (some d))
        = d.content ++ " — " ++ d.author) := by
  refine ⟨fun body => rfl, rfl, fun d => rfl⟩

/-! ### `fetchVideos` (api.js lines 53-95) -/

/-- The nested `item.id` of a YouTube search result. -/
structure YtId where
  videoId : String
deriving DecidableEq, Repr

/-- The nested `item.snippet` of a YouTube search result. -/
structure YtSnippet where
  title : String
  channelTitle : String
deriving DecidableEq, Repr

structure YtItem where
  id : YtId
  snippet : YtSnippet
deriving DecidableEq, Repr

/-- The YouTube search response body (`items` sequence). -/
structure YtResponse where
  items : List YtItem
deriving DecidableEq, Repr

/-- The fixed 2-item mock list returned when the API key is missing or
still the placeholder (api.js lines 58-61). -/
def mockVideos : List Video :=
  [{ videoId := "e-g-j8Jt4_8", title := "5 Minute Morning Meditation",
     channelTitle := "Mock Wellness Channel" },
   { videoId := "5q3IqjGf_mY", title := "Quick De-stress Breathing",
     channelTitle := "Mock Wellness Channel" }]

/-- The `items.map` projection into the flat `Video` record. -/
def mapYtItem (it : YtItem) : Video :=
  { videoId := it.id.videoId, title := it.snippet.title,
    channelTitle := it.snippet.channelTitle }

/-- The body of the `try` block in `fetchVideos`: an `Except.error`
marks a thrown exception (fetch rejection, non-ok status, or a
json/shape failure). -/
def tryFetchVideos (net : FetchOutcome YtResponse) :
    Except String (List Video) :=
  match net with
  | FetchOutcome.fault => Except.error "network error"
  | FetchOutcome.resp ok body =>
    if ok then
      match body with
      | some data => Except.ok (data.items.map mapYtItem)
      | none => Except.error "parsing fault"
    else Except.error "YouTube API failed"

/-- Whether the configured credential short-circuits `fetchVideos`
(api.js line 55): placeholder value or falsy (empty) string. -/
def keyMissing (key : String) : Bool :=
  key == "YOUR_YOUTUBE_API_KEY" || key == ""

/-- Model of `fetchVideos`: the first component is what the function delivers to
its caller (`Except.error` would mean an uncaught exception; the
function's catch turns every internal throw into `[]`), the second
records whether the network request was issued. -/
def fetchVideos (key : String) (net : FetchOutcome YtResponse) :
    Except String (List Video) × Bool :=
  if keyMissing key then (Except.ok mockVideos, false)
  else
    (match tryFetchVideos net with
     | Except.ok vs => Except.ok vs
     | Except.error _ => Except.ok ([] : List Video), true)

/-- C5: an empty or placeholder credential makes `fetchVideos` return
the fixed 2-item mock list without issuing any network request (the
result is the same for every network outcome, and the request flag is
false). -/
theorem fetchVideos_gating_mock (key : String) (net : FetchOutcome YtResponse)
    (h : key = "YOUR_YOUTUBE_API_KEY" ∨ key = "") :
    fetchVideos key net = (Except.ok mockVideos, false) := by
  have hk : keyMissing key = true := by
    rcases h with h | h <;> simp [keyMissing, h]
  simp [fetchVideos, hk]

/-- Witness for C5 at the empty credential and a faulting network. -/
theorem fetchVideos_gating_mock_witness :
    fetchVideos "" FetchOutcome.fault = (Except.ok mockVideos, false) :=
  fetchVideos_gating_mock "" FetchOutcome.fault (Or.inr rfl)

/-- C6: with a configured credential, a network fault, a non-success
status, or a parsing fault makes `fetchVideos` return the empty
sequence (after issuing the request) — not the mock list, which is
nonempty and reserved for the unconfigured-credential case. -/
theorem fetchVideos_error_empty (key : String) (net : FetchOutcome YtResponse)
    (hk : ¬(key = "YOUR_YOUTUBE_API_KEY" ∨ key = ""))
    (herr : net = FetchOutcome.fault
      ∨ (∃ body, net = FetchOutcome.resp false body)
      ∨ net = FetchOutcome.resp true none) :
    fetchVideos key net = (Except.ok ([] : List Video), true)
    ∧ mockVideos ≠ ([] : List Video) := by
  have hkm : keyMissing key = false := by
    rw [keyMissing, Bool.or_eq_false_iff]
    constructor <;> simp only [beq_eq_false_iff_ne, ne_eq] <;> tauto
  constructor
  · rcases herr with h | ⟨body, h⟩ | h <;>
      simp [fetchVideos, hkm, h, tryFetchVideos]
  · simp [mockVideos]

/-- Witness for C6 at a configured key and a faulting network. -/
theorem fetchVideos_error_empty_witness :
    fetchVideos "real-key" FetchOutcome.fault
      = (Except.ok ([] : List Video), true)
    ∧ mockVideos ≠ ([] : List Video) :=
  fetchVideos_error_empty "real-key" FetchOutcome.fault
    (by rintro (h | h) <;> simp at h) (Or.inl rfl)

/-- The fixed 3-item fallback list of `loadInitialData`'s video catch
branch (app.js lines 376-380). -/
def fallbackVideos3 : List Video :=
  [{ videoId := "4R7tYqW1p5Y", title := "Guided Meditation for Deep Sleep",
     channelTitle := "Calm Channel" },
   { videoId := "o2_VnL26-gI", title := "Full Body Stretching Routine",
     channelTitle := "Fitness Daily" },
   { videoId := "wFk-y_Y_rYI", title := "Healthy Meal Prep Ideas",
     channelTitle := "Cooking Light" }]

/-- Phase 3 of `loadInitialData` (app.js lines 367-383): render the
videos `fetchVideos` delivered, or — only if `fetchVideos` threw — the
3-item fallback list; the flag records whether the catch branch ran. -/
def loadVideosPhase (key : String) (net : FetchOutcome YtResponse) :
    List Video × Bool :=
  match (fetchVideos key net).1 with
  | Except.ok vs => (vs, false)
  | Except.error _ => (fallbackVideos3, true)

/-- C10: `fetchVideos` is total and never delivers an exception to its
caller — every path yields the mock list, the mapped provider results,
or the empty list — so `loadInitialData`'s catch-based 3-item fallback
branch is never taken via `fetchVideos`. -/
theorem fetchVideos_total_no_throw (key : String)
    (net : FetchOutcome YtResponse) :
    (∃ vs : List Video, (fetchVideos key net).1 = Except.ok vs
      ∧ (vs = mockVideos ∨ vs = ([] : List Video)
        ∨ ∃ d : YtResponse, net = FetchOutcome.resp true (some d)
            ∧ vs = d.items.map mapYtItem))
    ∧ (loadVideosPhase key net).2 = false := by
  have key_cases : ∃ vs : List Video, (fetchVideos key net).1 = Except.ok vs
      ∧ (vs = mockVideos ∨ vs = ([] : List Video)
        ∨ ∃ d : YtResponse, net = FetchOutcome.resp true (some d)
            ∧ vs = d.items.map mapYtItem) := by
    cases hk : keyMissing key
    · cases net with
      | fault => exact ⟨[], by simp [fetchVideos, hk, tryFetchVideos], Or.inr (Or.inl rfl)⟩
      | resp ok body =>
        cases ok
        · exact ⟨[], by simp [fetchVideos, hk, tryFetchVideos], Or.inr (Or.inl rfl)⟩
        · cases body with
          | none => exact ⟨[], by simp [fetchVideos, hk, tryFetchVideos], Or.inr (Or.inl rfl)⟩
          | some d =>
            exact ⟨d.items.map mapYtItem,
              by simp [fetchVideos, hk, tryFetchVideos],
              Or.inr (Or.inr ⟨d, rfl, rfl⟩)⟩
    · exact ⟨mockVideos, by simp [fetchVideos, hk], Or.inl rfl⟩
  refine ⟨key_cases, ?_⟩
  rcases key_cases with ⟨vs, hvs, _⟩
  rw [loadVideosPhase, hvs]

/-! ## Local tips loading (`loadInitialData` phase 1, app.js lines 339-349)

`loadInitialData` always first checks `localTipsData.length === 0`;
only then does it fetch `data/data.json`, on failure substituting the
single synthetic error tip.  `fetched` is the fetch's result
(`none` = the fetch or its `.json()` failed), and each call's Bool
records whether a fetch was issued. -/

/-- The single synthetic error tip (app.js line 347). -/
def errorTip : Tip :=
  { id := "fail", title := "Data Load Error",
    content := "Could not load local tips.", category := "Error",
    source := "System" }

def loadTipsPhase (fetched : Option (List Tip)) (tips : List Tip) :
    List Tip × Bool :=
  if tips.length == 0 then
    match fetched with
    | some l => (l, true)
    | none => ([errorTip], true)
  else (tips, false)

/-- A sequence of `loadInitialData` calls within one session, threading
the `localTipsData` state and counting how many times the local tips
file was fetched. -/
def runLoadTips : List (Option (List Tip)) → List Tip → List Tip × Nat
  | [], tips => (tips, 0)
  | f :: fs, tips =>
    match loadTipsPhase f tips with
    | (tips', fetched) =>
      match runLoadTips fs tips' with
      | (tipsEnd, n) => (tipsEnd, (if fetched then 1 else 0) + n)

/-- C9 counterexample: a first call whose fetch succeeds with an empty
tips collection leaves `localTipsData` empty, so a second call fetches
again — two fetches in one session, refuting "fetched exactly once". -/
theorem loadTips_refetch_counterexample :
    (runLoadTips [some [], some []] ([] : List Tip)).2 = 2
    ∧ (2 : Nat) ≠ 1 := by
  constructor
  · rfl
  · decide

lemma runLoadTips_of_nonempty (fs : List (Option (List Tip)))
    (tips : List Tip) (h : tips ≠ []) : runLoadTips fs tips = (tips, 0) := by
  induction fs with
  | nil => rfl
  | cons f fs ih =>
    have hlen : (tips.length == 0) = false := by
      simpa [List.length_eq_zero] using h
    simp [runLoadTips, loadTipsPhase, hlen, ih]

/-- C9 amended: the tips collection is (re)fetched only while it is
empty; provided a successful load yields a non-empty collection, any
session's sequence of `loadInitialData` calls fetches exactly once, and
when that single load fails the collection becomes exactly the one
synthetic error tip. -/
theorem loadTips_once_amended (f : Option (List Tip))
    (fs : List (Option (List Tip)))
    (h : ∀ l, f = some l → l ≠ []) :
    (runLoadTips (f :: fs) ([] : List Tip)).2 = 1
    ∧ (runLoadTips (f :: fs) ([] : List Tip)).1
        = (match f with | some l => l | none => [errorTip]) := by
  cases f with
  | none =>
    have hrun : runLoadTips fs [errorTip] = ([errorTip], 0) :=
      runLoadTips_of_nonempty fs [errorTip] (by simp [errorTip])
    have hfirst : loadTipsPhase none ([] : List Tip) = ([errorTip], true) := rfl
    simp [runLoadTips, hfirst, hrun]
  | some l =>
    have hl : l ≠ [] := h l rfl
    have hfirst : loadTipsPhase (some l) ([] : List Tip) = (l, true) := rfl
    have hrun : runLoadTips fs l = (l, 0) := runLoadTips_of_nonempty fs l hl
    simp [runLoadTips, hfirst, hrun]

/-- Witness for C9's amended theorem: a single failing load fetches once
and leaves exactly the synthetic error tip. -/
theorem loadTips_once_amended_witness :
    (runLoadTips [none] ([] : List Tip)).2 = 1
    ∧ (runLoadTips [none] ([] : List Tip)).1 = [errorTip] := by
  have h := loadTips_once_amended none [] (fun l hl => by cases hl)
  exact ⟨h.1, h.2⟩

end WellnessHub
